import Mathlib

/-!
Shallow embedding of the `DragDropManager` class (drag/reposition controller
of the portfolio site). DOM state that the class reads and writes is made
explicit: each draggable item carries its inline `left`/`top` style, its
`data-x`/`data-y` attributes, its class flags and its ARIA attributes; the
manager state carries the two drag sessions, the viewport mode, the wrapper
layout classes, the live-region announcements and the listener bookkeeping.
Geometry values that the code obtains from `getBoundingClientRect()` and
event coordinates are passed to the transition functions as inputs.
Numbers are rationals (JS numbers, no NaN paths are exercised here);
`Math.round` is the rational `round` (round half toward positive infinity,
as in JS).
-/

namespace DragDrop

/-- A pixel position, as in the `Position` interface. -/
structure Position where
  x : ℚ
  y : ℚ
deriving DecidableEq

/-- Result of `getBoundingClientRect()` for an element. -/
structure Rect where
  left : ℚ
  top : ℚ
  width : ℚ
  height : ℚ
deriving DecidableEq

/-- The `DragState` interface: pointer-drag session record.
`currentItem` is the index of the dragged item in `items` (`none` = null). -/
structure DragState where
  isDragging : Bool
  currentItem : Option ℕ
  offset : Position
deriving DecidableEq

/-- The `KeyboardDragState` interface: keyboard-drag session record. -/
structure KeyboardDragState where
  isKeyboardDragging : Bool
  currentItem : Option ℕ
deriving DecidableEq

/-- The `keyboard` part of `DragContainerConfig`. -/
structure KeyboardConfig where
  moveStep : ℚ
  fastMoveStep : ℚ
deriving DecidableEq

/-- The `layout` part of `DragContainerConfig`. -/
structure LayoutConfig where
  desktopBreakpoint : ℚ
deriving DecidableEq

/-- The `DragContainerConfig` interface (selectors are resolved outside the
embedding, so only the behavioural fields are kept). -/
structure DragContainerConfig where
  layout : LayoutConfig
  keyboard : KeyboardConfig
deriving DecidableEq

/-- The `DRAG_CONTAINER` default configuration. -/
def DRAG_CONTAINER : DragContainerConfig :=
  { layout := { desktopBreakpoint := 768 }
    keyboard := { moveStep := 10, fastMoveStep := 50 } }

/-- DOM state of one draggable item that the class reads or writes:
inline styles (`none` = empty/unparseable, so `parseFloat(...) || 0`
yields 0), `data-x`/`data-y` attributes (`none` = attribute absent),
the two drag class flags and the accessibility attributes. -/
structure ItemState where
  styleLeft : Option ℚ
  styleTop : Option ℚ
  dataX : Option ℚ
  dataY : Option ℚ
  hasDraggingClass : Bool
  hasKeyboardDraggingClass : Bool
  ariaGrabbed : Option String
  tabindex : Option String
  role : Option String
  ariaLabel : Option String
  ariaDescribedby : Option String
deriving DecidableEq

/-- Wrapper element layout classes (`classList.toggle` targets). -/
structure WrapperState where
  hasDesktopClass : Bool
  hasMobileClass : Bool
deriving DecidableEq

/-- Whole state of a `DragDropManager` instance together with the DOM
it owns. Listener registrations are booleans because every
`addEventListener` call uses the same bound handler, so re-adding is a
DOM-level no-op. -/
structure ManagerState where
  config : DragContainerConfig
  hasContainer : Bool
  hasWrapper : Bool
  wrapper : WrapperState
  items : List ItemState
  isDesktop : Bool
  dragState : DragState
  keyboardDragState : KeyboardDragState
  isInitialized : Bool
  announcerPresent : Bool
  instructionsPresent : Bool
  announcements : List String
  warnings : List String
  resizeListenerBound : Bool
  docDragListenersBound : Bool
  itemDragListenersBound : Bool
  keydownListenersBound : Bool
deriving DecidableEq

/-- Replace the item at index `i` by `f` applied to it (models an in-place
mutation of one `HTMLElement` in `this.items`). -/
def setItemList (items : List ItemState) (i : ℕ) (f : ItemState → ItemState) :
    List ItemState :=
  match items, i with
  | [], _ => []
  | a :: as, 0 => f a :: as
  | a :: as, n + 1 => a :: setItemList as n f

/-- Apply `f` to item `i` of the manager state. -/
def setItem (s : ManagerState) (i : ℕ) (f : ItemState → ItemState) :
    ManagerState :=
  { s with items := setItemList s.items i f }

/-- `Math.min` on two (non-NaN) numbers, kept kernel-reducible. -/
def jsMin (a b : ℚ) : ℚ := if a ≤ b then a else b

/-- `Math.max` on two (non-NaN) numbers, kept kernel-reducible. -/
def jsMax (a b : ℚ) : ℚ := if a ≤ b then b else a

/-- `announce(message)`: guarded by the announcer's existence; the cleared
text and the delayed write collapse to appending the message. -/
def announce (s : ManagerState) (message : String) : ManagerState :=
  if !s.announcerPresent then s
  else { s with announcements := s.announcements ++ [message] }

/-- `moveItem(x, y)`: clamp the pointer position (minus captured offset and
container origin) into the container and write it to the style and, rounded,
to the data attributes. -/
def moveItem (s : ManagerState) (containerRect itemRect : Rect)
    (x y : ℚ) : ManagerState :=
  match s.dragState.currentItem, s.hasContainer with
  | some i, true =>
    let left := x - s.dragState.offset.x - containerRect.left
    let top := y - s.dragState.offset.y - containerRect.top
    let left := jsMax 0 (jsMin left (containerRect.width - itemRect.width))
    let top := jsMax 0 (jsMin top (containerRect.height - itemRect.height))
    setItem s i (fun it =>
      { it with
        styleLeft := some left
        styleTop := some top
        dataX := some ((round left : ℤ) : ℚ)
        dataY := some ((round top : ℤ) : ℚ) })
  | _, _ => s

/-- `moveItemKeyboard(deltaX, deltaY)`: step from the current inline style
(`parseFloat(...) || 0`), clamp identically to `moveItem`, write style and
rounded data attributes. -/
def moveItemKeyboard (s : ManagerState) (containerRect itemRect : Rect)
    (deltaX deltaY : ℚ) : ManagerState :=
  match s.keyboardDragState.currentItem, s.hasContainer with
  | some i, true =>
    match s.items[i]? with
    | none => s
    | some item =>
      let currentLeft := item.styleLeft.getD 0
      let currentTop := item.styleTop.getD 0
      let newLeft := currentLeft + deltaX
      let newTop := currentTop + deltaY
      let newLeft := jsMax 0 (jsMin newLeft (containerRect.width - itemRect.width))
      let newTop := jsMax 0 (jsMin newTop (containerRect.height - itemRect.height))
      setItem s i (fun it =>
        { it with
          styleLeft := some newLeft
          styleTop := some newTop
          dataX := some ((round newLeft : ℤ) : ℚ)
          dataY := some ((round newTop : ℤ) : ℚ) })
  | _, _ => s

/-- `startKeyboardDrag(item)`. -/
def startKeyboardDrag (s : ManagerState) (i : ℕ) : ManagerState :=
  let s := { s with keyboardDragState := ⟨true, some i⟩ }
  let s := setItem s i (fun it =>
    { it with hasKeyboardDraggingClass := true, ariaGrabbed := some "true" })
  let index := i + 1
  announce s s!"Item {index} grabbed. Use arrow keys to move, Shift + arrow keys for larger movements. Press Enter, Space, or Escape to drop."

/-- `endKeyboardDrag()`. -/
def endKeyboardDrag (s : ManagerState) : ManagerState :=
  match s.keyboardDragState.currentItem with
  | none => s
  | some i =>
    let s := setItem s i (fun it =>
      { it with hasKeyboardDraggingClass := false, ariaGrabbed := some "false" })
    let index := i + 1
    let left : ℤ := round (((s.items[i]?).bind (fun it => it.styleLeft)).getD 0)
    let top : ℤ := round (((s.items[i]?).bind (fun it => it.styleTop)).getD 0)
    let s := announce s s!"Item {index} dropped at position {left}, {top}."
    { s with keyboardDragState := ⟨false, none⟩ }

/-- `handleKeyDown(e)` for a keydown on item `i` with the given key and
Shift modifier; the rects are what `getBoundingClientRect()` would return
during a resulting `moveItemKeyboard`. -/
def handleKeyDown (s : ManagerState) (i : ℕ) (key : String) (shiftKey : Bool)
    (containerRect itemRect : Rect) : ManagerState :=
  if !s.isDesktop then s
  else if key = "Enter" ∨ key = " " then
    if s.keyboardDragState.isKeyboardDragging then endKeyboardDrag s
    else startKeyboardDrag s i
  else if key = "Escape" ∧ s.keyboardDragState.isKeyboardDragging = true then
    endKeyboardDrag s
  else if s.keyboardDragState.isKeyboardDragging = true ∧
      s.keyboardDragState.currentItem = some i then
    let moveStep := if shiftKey then s.config.keyboard.fastMoveStep
      else s.config.keyboard.moveStep
    if key = "ArrowLeft" then moveItemKeyboard s containerRect itemRect (-moveStep) 0
    else if key = "ArrowRight" then moveItemKeyboard s containerRect itemRect moveStep 0
    else if key = "ArrowUp" then moveItemKeyboard s containerRect itemRect 0 (-moveStep)
    else if key = "ArrowDown" then moveItemKeyboard s containerRect itemRect 0 moveStep
    else s
  else s

/-- An event target as seen by `isClickableElement`: its own `tagName`
(uppercase, as the DOM reports it for HTML elements) and the `tagName`s of
its ancestors, nearest first. -/
structure EventTarget where
  tagName : String
  ancestorTags : List String
deriving DecidableEq

/-- The `clickableTags` array. -/
def clickableTags : List String := ["A", "BUTTON", "INPUT", "TEXTAREA", "SELECT"]

/-- `el.closest('a, button, input, textarea, select') !== null`: the selector
matches the element itself or one of its ancestors (HTML tag matching is
case-insensitive, so the uppercase tag names are compared). -/
def closestClickable (el : EventTarget) : Bool :=
  (el.tagName :: el.ancestorTags).any (fun t => clickableTags.contains t)

/-- `isClickableElement(el)`. -/
def isClickableElement (el : EventTarget) : Bool :=
  clickableTags.contains el.tagName || closestClickable el

/-- `startDrag(item, x, y)`; `itemRect` is the item's bounding rect. -/
def startDrag (s : ManagerState) (i : ℕ) (itemRect : Rect)
    (x y : ℚ) : ManagerState :=
  if !s.isDesktop then s
  else
    let s := { s with
      dragState := ⟨true, some i, ⟨x - itemRect.left, y - itemRect.top⟩⟩ }
    setItem s i (fun it =>
      { it with hasDraggingClass := true, ariaGrabbed := some "true" })

/-- `handleMouseDown(e)` on item `i` with the given event target and
client coordinates. -/
def handleMouseDown (s : ManagerState) (target : EventTarget) (i : ℕ)
    (itemRect : Rect) (clientX clientY : ℚ) : ManagerState :=
  if isClickableElement target then s
  else startDrag s i itemRect clientX clientY

/-- `handleTouchStart(e)` on item `i`; the coordinates are those of the
first touch. -/
def handleTouchStart (s : ManagerState) (target : EventTarget) (i : ℕ)
    (itemRect : Rect) (clientX clientY : ℚ) : ManagerState :=
  if isClickableElement target then s
  else startDrag s i itemRect clientX clientY

/-- `handleMouseMove(e)`; `itemRect` is the current item's bounding rect. -/
def handleMouseMove (s : ManagerState) (containerRect itemRect : Rect)
    (clientX clientY : ℚ) : ManagerState :=
  if !s.dragState.isDragging then s
  else moveItem s containerRect itemRect clientX clientY

/-- `handleTouchMove(e)`; the coordinates are those of the first touch. -/
def handleTouchMove (s : ManagerState) (containerRect itemRect : Rect)
    (clientX clientY : ℚ) : ManagerState :=
  if !s.dragState.isDragging then s
  else moveItem s containerRect itemRect clientX clientY

/-- `endDrag()`. -/
def endDrag (s : ManagerState) : ManagerState :=
  let s :=
    match s.dragState.currentItem with
    | some i => setItem s i (fun it =>
        { it with hasDraggingClass := false, ariaGrabbed := some "false" })
    | none => s
  { s with dragState := ⟨false, none, ⟨0, 0⟩⟩ }

/-- `handleMouseUp()`. -/
def handleMouseUp (s : ManagerState) : ManagerState := endDrag s

/-- `handleTouchEnd()`. -/
def handleTouchEnd (s : ManagerState) : ManagerState := endDrag s

/-- `updateViewportMode()` with the current `window.innerWidth`. -/
def updateViewportMode (s : ManagerState) (innerWidth : ℚ) : ManagerState :=
  { s with isDesktop := decide (innerWidth > s.config.layout.desktopBreakpoint) }

/-- `applyLayout()`: `classList.toggle(class, force)` on the wrapper. -/
def applyLayout (s : ManagerState) : ManagerState :=
  if !s.hasWrapper then s
  else { s with wrapper := ⟨s.isDesktop, !s.isDesktop⟩ }

/-- `positionItems()`: restore each item's inline style from its data
attributes when both are present. -/
def positionItems (s : ManagerState) : ManagerState :=
  if !s.hasContainer then s
  else { s with items := s.items.map (fun item =>
    match item.dataX, item.dataY with
    | some dl, some dt => { item with styleLeft := some dl, styleTop := some dt }
    | _, _ => item) }

/-- `bindDragEvents()`: registers the per-item mousedown/touchstart and the
document-level move/up/end listeners (idempotent at the DOM level, since the
same bound handlers are used). -/
def bindDragEvents (s : ManagerState) : ManagerState :=
  { s with itemDragListenersBound := true, docDragListenersBound := true }

/-- `makeItemsAccessible()`: ARIA attributes on every item, the shared
instructions node, and each item's keydown listener. -/
def makeItemsAccessible (s : ManagerState) : ManagerState :=
  { s with
    items := s.items.mapIdx (fun index item =>
      { item with
        tabindex := some "0"
        role := some "button"
        ariaLabel := some s!"Draggable item {index + 1}"
        ariaDescribedby := some "drag-instructions" })
    instructionsPresent := true
    keydownListenersBound := true }

/-- `handleResize()` with the new `window.innerWidth`. -/
def handleResize (s : ManagerState) (innerWidth : ℚ) : ManagerState :=
  let wasDesktop := s.isDesktop
  let s := updateViewportMode s innerWidth
  if wasDesktop ≠ s.isDesktop then
    let s := applyLayout s
    if s.isDesktop then
      makeItemsAccessible (bindDragEvents (positionItems s))
    else
      { s with items := s.items.map (fun item =>
          { item with
            styleLeft := none
            styleTop := none
            tabindex := none
            role := none
            ariaLabel := none
            ariaDescribedby := none
            ariaGrabbed := none }) }
  else s

/-- What the constructor finds in the document: whether the container
selector resolves, whether the wrapper selector resolves under it, the
cached items' initial DOM state and the viewport width at `init()`. -/
structure DomEnv where
  containerPresent : Bool
  wrapperPresent : Bool
  itemsInit : List ItemState
  innerWidth : ℚ
deriving DecidableEq

/-- `createAnnouncer()`. -/
def createAnnouncer (s : ManagerState) : ManagerState :=
  { s with announcerPresent := true }

/-- `init()`. -/
def init (s : ManagerState) (innerWidth : ℚ) : ManagerState :=
  let s := createAnnouncer s
  let s := updateViewportMode s innerWidth
  let s := applyLayout s
  let s := if s.isDesktop then
      makeItemsAccessible (bindDragEvents (positionItems s)) else s
  { s with resizeListenerBound := true }

/-- The constructor: merge the config (already merged here), `cacheDom()`,
and on a missing container or wrapper log one warning and return without
binding anything; otherwise `init()` and mark initialized. -/
def construct (cfg : DragContainerConfig) (env : DomEnv) : ManagerState :=
  let hasContainer := env.containerPresent
  let hasWrapper := hasContainer && env.wrapperPresent
  let items := if hasContainer then env.itemsInit else []
  let s : ManagerState :=
    { config := cfg
      hasContainer := hasContainer
      hasWrapper := hasWrapper
      wrapper := ⟨false, false⟩
      items := items
      isDesktop := false
      dragState := ⟨false, none, ⟨0, 0⟩⟩
      keyboardDragState := ⟨false, none⟩
      isInitialized := false
      announcerPresent := false
      instructionsPresent := false
      announcements := []
      warnings := []
      resizeListenerBound := false
      docDragListenersBound := false
      itemDragListenersBound := false
      keydownListenersBound := false }
  if !s.hasContainer || !s.hasWrapper then
    { s with warnings := s.warnings ++ ["No elements found to move around"] }
  else
    let s := init s env.innerWidth
    { s with isInitialized := true }

/-- `destroy()`: a guarded teardown; removes the resize listener, the
document-level drag listeners, each item's keydown listener, the announcer
and the instructions node (per-item mousedown/touchstart listeners are
deliberately not removed). -/
def destroy (s : ManagerState) : ManagerState :=
  if !s.isInitialized then s
  else { s with
    resizeListenerBound := false
    docDragListenersBound := false
    keydownListenersBound := false
    announcerPresent := false
    instructionsPresent := false }

/-- The rendered inline offset of item `i`, when both styles are set. -/
def renderedOffset (s : ManagerState) (i : ℕ) : Option (ℚ × ℚ) :=
  (s.items[i]?).bind (fun it =>
    match it.styleLeft, it.styleTop with
    | some l, some t => some (l, t)
    | _, _ => none)

/-- The inline `left` style of item `i`. -/
def itemStyleLeft (s : ManagerState) (i : ℕ) : Option ℚ :=
  (s.items[i]?).bind (fun it => it.styleLeft)

/-- The `data-x` attribute of item `i`. -/
def itemDataX (s : ManagerState) (i : ℕ) : Option ℚ :=
  (s.items[i]?).bind (fun it => it.dataX)

/-- The `data-y` attribute of item `i`. -/
def itemDataY (s : ManagerState) (i : ℕ) : Option ℚ :=
  (s.items[i]?).bind (fun it => it.dataY)

/-- Whether item `i` carries the keyboard-dragging class. -/
def itemKbdClass (s : ManagerState) (i : ℕ) : Option Bool :=
  (s.items[i]?).map (fun it => it.hasKeyboardDraggingClass)

/-- Whether item `i` carries the dragging class. -/
def itemDragClass (s : ManagerState) (i : ℕ) : Option Bool :=
  (s.items[i]?).map (fun it => it.hasDraggingClass)

/-- The `aria-grabbed` attribute of item `i`. -/
def itemAriaGrabbed (s : ManagerState) (i : ℕ) : Option (Option String) :=
  (s.items[i]?).map (fun it => it.ariaGrabbed)

/-! ### Concrete states used by witnesses and counterexamples -/

/-- An item fresh from the HTML, with no inline styles or data attributes. -/
def blankItem : ItemState :=
  ⟨none, none, none, none, false, false, none, none, none, none, none⟩

/-- A 400×300 container rect at the viewport origin. -/
def exCR : Rect := ⟨0, 0, 400, 300⟩

/-- A 50×40 item rect. -/
def exIR : Rect := ⟨0, 0, 50, 40⟩

/-- A fully initialized desktop-mode manager with two blank items and no
active session. -/
def baseState : ManagerState :=
  { config := DRAG_CONTAINER
    hasContainer := true
    hasWrapper := true
    wrapper := ⟨true, false⟩
    items := [blankItem, blankItem]
    isDesktop := true
    dragState := ⟨false, none, ⟨0, 0⟩⟩
    keyboardDragState := ⟨false, none⟩
    isInitialized := true
    announcerPresent := true
    instructionsPresent := true
    announcements := []
    warnings := []
    resizeListenerBound := true
    docDragListenersBound := true
    itemDragListenersBound := true
    keydownListenersBound := true }

/-! ### Helper lemmas -/

theorem setItemList_get? (items : List ItemState) (i : ℕ)
    (f : ItemState → ItemState) :
    (setItemList items i f)[i]? = items[i]?.map f := by
  induction items generalizing i with
  | nil => simp [setItemList]
  | cons a as ih =>
    cases i with
    | zero => simp [setItemList]
    | succ n => simpa [setItemList] using ih n

theorem jsMin_eq_min (a b : ℚ) : jsMin a b = min a b := by rw [jsMin, min_def]

theorem jsMax_eq_max (a b : ℚ) : jsMax a b = max a b := by rw [jsMax, max_def]

theorem clamp_nonneg (v b : ℚ) : 0 ≤ max 0 (min v b) := le_max_left 0 _

theorem clamp_le (v b : ℚ) (hb : 0 ≤ b) : max 0 (min v b) ≤ b :=
  max_le hb (min_le_right v b)

theorem clamp_eq_zero_of_neg (v b : ℚ) (hb : b < 0) : max 0 (min v b) = 0 :=
  max_eq_left (le_of_lt (lt_of_le_of_lt (min_le_right v b) hb))

theorem moveItem_result (s : ManagerState) (cr ir : Rect) (x y : ℚ) (i : ℕ)
    (it : ItemState)
    (hcur : s.dragState.currentItem = some i) (hc : s.hasContainer = true)
    (hit : s.items[i]? = some it) :
    renderedOffset (moveItem s cr ir x y) i =
      some (max 0 (min (x - s.dragState.offset.x - cr.left) (cr.width - ir.width)),
            max 0 (min (y - s.dragState.offset.y - cr.top) (cr.height - ir.height))) ∧
    itemDataX (moveItem s cr ir x y) i =
      some ((round (max 0 (min (x - s.dragState.offset.x - cr.left)
        (cr.width - ir.width))) : ℤ) : ℚ) ∧
    itemDataY (moveItem s cr ir x y) i =
      some ((round (max 0 (min (y - s.dragState.offset.y - cr.top)
        (cr.height - ir.height))) : ℤ) : ℚ) := by
  simp [moveItem, hcur, hc, renderedOffset, itemDataX, itemDataY, setItem,
    setItemList_get?, hit, jsMax_eq_max, jsMin_eq_min]

theorem moveItemKeyboard_result (s : ManagerState) (cr ir : Rect)
    (dx dy : ℚ) (i : ℕ) (it : ItemState)
    (hcur : s.keyboardDragState.currentItem = some i) (hc : s.hasContainer = true)
    (hit : s.items[i]? = some it) :
    renderedOffset (moveItemKeyboard s cr ir dx dy) i =
      some (max 0 (min (it.styleLeft.getD 0 + dx) (cr.width - ir.width)),
            max 0 (min (it.styleTop.getD 0 + dy) (cr.height - ir.height))) ∧
    itemDataX (moveItemKeyboard s cr ir dx dy) i =
      some ((round (max 0 (min (it.styleLeft.getD 0 + dx)
        (cr.width - ir.width))) : ℤ) : ℚ) ∧
    itemDataY (moveItemKeyboard s cr ir dx dy) i =
      some ((round (max 0 (min (it.styleTop.getD 0 + dy)
        (cr.height - ir.height))) : ℤ) : ℚ) := by
  simp [moveItemKeyboard, hcur, hc, hit, renderedOffset, itemDataX, itemDataY,
    setItem, setItemList_get?, jsMax_eq_max, jsMin_eq_min]

/-! ### Claims -/

/-- C1: Boundary clamp law. For every pointer-drag move event and every
keyboard move, given container width `W`, height `H`, item width `w ≤ W`
and height `h ≤ H`, the position written to the item's rendered offset
satisfies `0 ≤ x ≤ W - w` and `0 ≤ y ≤ H - h`. -/
theorem move_boundary_clamp (s : ManagerState) (cr ir : Rect)
    (x y dx dy : ℚ) (i : ℕ) (it : ItemState)
    (hw : ir.width ≤ cr.width) (hh : ir.height ≤ cr.height)
    (hc : s.hasContainer = true) (hit : s.items[i]? = some it) :
    (s.dragState.currentItem = some i →
      ∃ l t, renderedOffset (moveItem s cr ir x y) i = some (l, t) ∧
        0 ≤ l ∧ l ≤ cr.width - ir.width ∧
        0 ≤ t ∧ t ≤ cr.height - ir.height) ∧
    (s.keyboardDragState.currentItem = some i →
      ∃ l t, renderedOffset (moveItemKeyboard s cr ir dx dy) i = some (l, t) ∧
        0 ≤ l ∧ l ≤ cr.width - ir.width ∧
        0 ≤ t ∧ t ≤ cr.height - ir.height) := by
  have hwb : (0 : ℚ) ≤ cr.width - ir.width := by linarith
  have hhb : (0 : ℚ) ≤ cr.height - ir.height := by linarith
  constructor
  · intro hcur
    obtain ⟨h1, -, -⟩ := moveItem_result s cr ir x y i it hcur hc hit
    exact ⟨_, _, h1, clamp_nonneg _ _, clamp_le _ _ hwb,
      clamp_nonneg _ _, clamp_le _ _ hhb⟩
  · intro hcur
    obtain ⟨h1, -, -⟩ := moveItemKeyboard_result s cr ir dx dy i it hcur hc hit
    exact ⟨_, _, h1, clamp_nonneg _ _, clamp_le _ _ hwb,
      clamp_nonneg _ _, clamp_le _ _ hhb⟩

/-- `baseState` with an active pointer-drag session and an active
keyboard-drag session, both on item 0. -/
def bothSessionsState : ManagerState :=
  { baseState with
    dragState := ⟨true, some 0, ⟨0, 0⟩⟩
    keyboardDragState := ⟨true, some 0⟩ }

/-- Witness for C1 at a concrete state: both sessions target item 0,
the pointer moves to (500, 500) and the keyboard delta is (10, 10). -/
theorem move_boundary_clamp_witness :
    exIR.width ≤ exCR.width ∧ exIR.height ≤ exCR.height ∧
    bothSessionsState.hasContainer = true ∧
    (∃ l t, renderedOffset (moveItem bothSessionsState exCR exIR 500 500) 0 =
        some (l, t) ∧
      0 ≤ l ∧ l ≤ exCR.width - exIR.width ∧
      0 ≤ t ∧ t ≤ exCR.height - exIR.height) :=
  ⟨by decide, by decide, by decide,
    (move_boundary_clamp bothSessionsState exCR exIR 500 500 10 10 0 blankItem
      (by decide) (by decide) (by decide) (by decide)).1 rfl⟩

/-- C8: Implicit. Positions written by any move (pointer or keyboard) are
never negative regardless of element sizes: because the lower clamp
(`Math.max(0, ...)`) is applied after the upper clamp (`Math.min(...)`),
even when the item is larger than the container
(`containerSize - itemSize < 0`) the written coordinate is 0. -/
theorem move_written_nonneg (s : ManagerState) (cr ir : Rect)
    (x y dx dy : ℚ) (i : ℕ) (it : ItemState)
    (hc : s.hasContainer = true) (hit : s.items[i]? = some it) :
    (s.dragState.currentItem = some i →
      ∃ l t, renderedOffset (moveItem s cr ir x y) i = some (l, t) ∧
        0 ≤ l ∧ 0 ≤ t ∧
        (cr.width - ir.width < 0 → l = 0) ∧
        (cr.height - ir.height < 0 → t = 0)) ∧
    (s.keyboardDragState.currentItem = some i →
      ∃ l t, renderedOffset (moveItemKeyboard s cr ir dx dy) i = some (l, t) ∧
        0 ≤ l ∧ 0 ≤ t ∧
        (cr.width - ir.width < 0 → l = 0) ∧
        (cr.height - ir.height < 0 → t = 0)) := by
  constructor
  · intro hcur
    obtain ⟨h1, -, -⟩ := moveItem_result s cr ir x y i it hcur hc hit
    exact ⟨_, _, h1, clamp_nonneg _ _, clamp_nonneg _ _,
      fun hb => clamp_eq_zero_of_neg _ _ hb,
      fun hb => clamp_eq_zero_of_neg _ _ hb⟩
  · intro hcur
    obtain ⟨h1, -, -⟩ := moveItemKeyboard_result s cr ir dx dy i it hcur hc hit
    exact ⟨_, _, h1, clamp_nonneg _ _, clamp_nonneg _ _,
      fun hb => clamp_eq_zero_of_neg _ _ hb,
      fun hb => clamp_eq_zero_of_neg _ _ hb⟩

/-- An item rect strictly larger than `exCR` on both axes. -/
def exBigIR : Rect := ⟨0, 0, 500, 400⟩

/-- Witness for C8: an item larger than the container on both axes is
written to the origin by a pointer move. -/
theorem move_written_nonneg_witness :
    bothSessionsState.hasContainer = true ∧
    (∃ l t,
      renderedOffset (moveItem bothSessionsState exCR exBigIR 500 500) 0 =
        some (l, t) ∧
      0 ≤ l ∧ 0 ≤ t ∧
      (exCR.width - exBigIR.width < 0 → l = 0) ∧
      (exCR.height - exBigIR.height < 0 → t = 0)) :=
  ⟨by decide,
    (move_written_nonneg bothSessionsState exCR exBigIR 500 500 10 10 0
      blankItem (by decide) (by decide)).1 rfl⟩

/-- C2 counterexample: a pointer move to fractional coordinates leaves a
fractional rendered `left` (21/2) while `data-x` holds the rounded value
(11), so the rendered inline offset does not equal the persisted
attribute. -/
theorem move_offset_mirror_counterexample :
    renderedOffset (moveItem bothSessionsState exCR exIR (21 / 2) 5) 0 =
      some (21 / 2, 5) ∧
    itemDataX (moveItem bothSessionsState exCR exIR (21 / 2) 5) 0 =
      some 11 ∧
    (21 / 2 : ℚ) ≠ (11 : ℚ) := by
  obtain ⟨h1, h2, -⟩ := moveItem_result bothSessionsState exCR exIR (21 / 2) 5 0
    blankItem rfl rfl (by decide)
  refine ⟨?_, ?_, by norm_num⟩
  · rw [h1]
    norm_num [bothSessionsState, baseState, exCR, exIR]
  · rw [h2]
    norm_num [bothSessionsState, baseState, exCR, exIR, round_eq]

/-- C2 (amended): after any move (pointer or keyboard), the persisted
`data-x`/`data-y` attributes equal the rendered offset rounded to the
nearest integer — hence they are integer pixel values, updated on every
change of (x, y) — but the rendered offset itself may be fractional and
then differs from the attributes. -/
theorem move_persists_rounded_offset (s : ManagerState) (cr ir : Rect)
    (x y dx dy : ℚ) (i : ℕ) (it : ItemState)
    (hc : s.hasContainer = true) (hit : s.items[i]? = some it) :
    (s.dragState.currentItem = some i →
      ∃ l t, renderedOffset (moveItem s cr ir x y) i = some (l, t) ∧
        itemDataX (moveItem s cr ir x y) i = some ((round l : ℤ) : ℚ) ∧
        itemDataY (moveItem s cr ir x y) i = some ((round t : ℤ) : ℚ)) ∧
    (s.keyboardDragState.currentItem = some i →
      ∃ l t, renderedOffset (moveItemKeyboard s cr ir dx dy) i = some (l, t) ∧
        itemDataX (moveItemKeyboard s cr ir dx dy) i = some ((round l : ℤ) : ℚ) ∧
        itemDataY (moveItemKeyboard s cr ir dx dy) i = some ((round t : ℤ) : ℚ)) := by
  constructor
  · intro hcur
    obtain ⟨h1, h2, h3⟩ := moveItem_result s cr ir x y i it hcur hc hit
    exact ⟨_, _, h1, h2, h3⟩
  · intro hcur
    obtain ⟨h1, h2, h3⟩ := moveItemKeyboard_result s cr ir dx dy i it hcur hc hit
    exact ⟨_, _, h1, h2, h3⟩

/-- Witness for the amended C2 at the counterexample's own input. -/
theorem move_persists_rounded_offset_witness :
    bothSessionsState.hasContainer = true ∧
    (∃ l t,
      renderedOffset (moveItem bothSessionsState exCR exIR (21 / 2) 5) 0 =
        some (l, t) ∧
      itemDataX (moveItem bothSessionsState exCR exIR (21 / 2) 5) 0 =
        some ((round l : ℤ) : ℚ) ∧
      itemDataY (moveItem bothSessionsState exCR exIR (21 / 2) 5) 0 =
        some ((round t : ℤ) : ℚ)) :=
  ⟨by decide,
    (move_persists_rounded_offset bothSessionsState exCR exIR (21 / 2) 5 10 10 0
      blankItem (by decide) (by decide)).1 rfl⟩

theorem isClickableElement_of_interactive (target : EventTarget)
    (h : target.tagName ∈ clickableTags ∨
      ∃ a ∈ target.ancestorTags, a ∈ clickableTags) :
    isClickableElement target = true := by
  rcases h with h | ⟨a, ha, hac⟩
  · simp [isClickableElement]
    exact Or.inl h
  · simp [isClickableElement, closestClickable]
    exact Or.inr ⟨a, ha, hac⟩

/-- C3: Interactive-passthrough law. For every mouse-down or touch-start
whose event target is, or is nested inside, a link, button, input, textarea
or select element, no drag session is started, the "dragging" class is not
set, and the whole drag state is unchanged (the handlers return the state
untouched). -/
theorem interactive_target_passthrough (s : ManagerState)
    (target : EventTarget) (i : ℕ) (ir : Rect) (x y : ℚ)
    (h : target.tagName ∈ clickableTags ∨
      ∃ a ∈ target.ancestorTags, a ∈ clickableTags) :
    handleMouseDown s target i ir x y = s ∧
    handleTouchStart s target i ir x y = s := by
  have hc := isClickableElement_of_interactive target h
  constructor
  · simp [handleMouseDown, hc]
  · simp [handleTouchStart, hc]

/-- Witness for C3: a mouse-down on a span nested inside a button. -/
theorem interactive_target_passthrough_witness :
    ((⟨"SPAN", ["BUTTON", "DIV"]⟩ : EventTarget).tagName ∈ clickableTags ∨
      ∃ a ∈ (⟨"SPAN", ["BUTTON", "DIV"]⟩ : EventTarget).ancestorTags,
        a ∈ clickableTags) ∧
    handleMouseDown baseState ⟨"SPAN", ["BUTTON", "DIV"]⟩ 0 exIR 100 100 =
      baseState ∧
    handleTouchStart baseState ⟨"SPAN", ["BUTTON", "DIV"]⟩ 0 exIR 100 100 =
      baseState :=
  ⟨by decide,
    (interactive_target_passthrough baseState ⟨"SPAN", ["BUTTON", "DIV"]⟩ 0
      exIR 100 100 (by decide)).1,
    (interactive_target_passthrough baseState ⟨"SPAN", ["BUTTON", "DIV"]⟩ 0
      exIR 100 100 (by decide)).2⟩

/-- C9: Implicit. A mouse-up or touch-end arriving when no pointer-drag
session is active is a safe no-op on the DOM: `endDrag` skips the class
removal and the `aria-grabbed` write when there is no current item and
resets the session record to the empty value, so when the session record
was already empty the handlers leave the whole state unchanged. -/
theorem endDrag_without_session_noop (s : ManagerState)
    (h : s.dragState.currentItem = none) :
    (endDrag s).items = s.items ∧
    (endDrag s).wrapper = s.wrapper ∧
    (endDrag s).dragState = ⟨false, none, ⟨0, 0⟩⟩ ∧
    (s.dragState = ⟨false, none, ⟨0, 0⟩⟩ →
      handleMouseUp s = s ∧ handleTouchEnd s = s) := by
  have hend : endDrag s = { s with dragState := ⟨false, none, ⟨0, 0⟩⟩ } := by
    simp [endDrag, h]
  refine ⟨by rw [hend], by rw [hend], by rw [hend], ?_⟩
  intro hd
  have hid : endDrag s = s := by rw [hend, ← hd]
  exact ⟨hid, hid⟩

/-- Witness for C9: `baseState` has no pointer-drag session. -/
theorem endDrag_without_session_noop_witness :
    baseState.dragState.currentItem = none ∧
    (endDrag baseState).items = baseState.items ∧
    (endDrag baseState).dragState = ⟨false, none, ⟨0, 0⟩⟩ ∧
    handleMouseUp baseState = baseState :=
  ⟨rfl,
    (endDrag_without_session_noop baseState rfl).1,
    (endDrag_without_session_noop baseState rfl).2.2.1,
    ((endDrag_without_session_noop baseState rfl).2.2.2 rfl).1⟩

/-- C5: Construction failure is soft. If the container or the wrapper
cannot be resolved, construction logs exactly one warning, attaches no
listeners, leaves the instance uninitialized, and `destroy()` afterwards is
a no-op (total, so nothing is thrown). -/
theorem construct_soft_failure (cfg : DragContainerConfig) (env : DomEnv)
    (h : env.containerPresent = false ∨ env.wrapperPresent = false) :
    (construct cfg env).warnings = ["No elements found to move around"] ∧
    (construct cfg env).isInitialized = false ∧
    (construct cfg env).resizeListenerBound = false ∧
    (construct cfg env).docDragListenersBound = false ∧
    (construct cfg env).itemDragListenersBound = false ∧
    (construct cfg env).keydownListenersBound = false ∧
    (construct cfg env).announcerPresent = false ∧
    destroy (construct cfg env) = construct cfg env := by
  rcases h with h | h <;>
    simp [construct, destroy, h]

/-- Witness for C5: a document with no container element. -/
theorem construct_soft_failure_witness :
    (⟨false, true, [], 1024⟩ : DomEnv).containerPresent = false ∧
    (construct DRAG_CONTAINER ⟨false, true, [], 1024⟩).warnings =
      ["No elements found to move around"] ∧
    (construct DRAG_CONTAINER ⟨false, true, [], 1024⟩).isInitialized = false ∧
    destroy (construct DRAG_CONTAINER ⟨false, true, [], 1024⟩) =
      construct DRAG_CONTAINER ⟨false, true, [], 1024⟩ :=
  ⟨rfl,
    (construct_soft_failure DRAG_CONTAINER ⟨false, true, [], 1024⟩
      (Or.inl rfl)).1,
    (construct_soft_failure DRAG_CONTAINER ⟨false, true, [], 1024⟩
      (Or.inl rfl)).2.1,
    (construct_soft_failure DRAG_CONTAINER ⟨false, true, [], 1024⟩
      (Or.inl rfl)).2.2.2.2.2.2.2⟩

theorem setItemList_get?_ne (items : List ItemState) (i j : ℕ)
    (f : ItemState → ItemState) (h : j ≠ i) :
    (setItemList items i f)[j]? = items[j]? := by
  induction items generalizing i j with
  | nil => simp [setItemList]
  | cons a as ih =>
    cases i with
    | zero =>
      cases j with
      | zero => exact absurd rfl h
      | succ m => simp [setItemList]
    | succ n =>
      cases j with
      | zero => simp [setItemList]
      | succ m => simpa [setItemList] using ih n m (fun hc => h (by rw [hc]))

theorem announce_items (s : ManagerState) (m : String) :
    (announce s m).items = s.items := by
  unfold announce; split <;> rfl

theorem announce_keyboardDragState (s : ManagerState) (m : String) :
    (announce s m).keyboardDragState = s.keyboardDragState := by
  unfold announce; split <;> rfl

theorem announce_isDesktop (s : ManagerState) (m : String) :
    (announce s m).isDesktop = s.isDesktop := by
  unfold announce; split <;> rfl

theorem announce_hasContainer (s : ManagerState) (m : String) :
    (announce s m).hasContainer = s.hasContainer := by
  unfold announce; split <;> rfl

theorem announce_config (s : ManagerState) (m : String) :
    (announce s m).config = s.config := by
  unfold announce; split <;> rfl

theorem startKeyboardDrag_keyboardDragState (s : ManagerState) (i : ℕ) :
    (startKeyboardDrag s i).keyboardDragState = ⟨true, some i⟩ := by
  simp [startKeyboardDrag, announce_keyboardDragState, setItem]

theorem startKeyboardDrag_items (s : ManagerState) (i : ℕ) :
    (startKeyboardDrag s i).items = setItemList s.items i (fun it =>
      { it with hasKeyboardDraggingClass := true, ariaGrabbed := some "true" }) := by
  simp [startKeyboardDrag, announce_items, setItem]

theorem startKeyboardDrag_isDesktop (s : ManagerState) (i : ℕ) :
    (startKeyboardDrag s i).isDesktop = s.isDesktop := by
  simp [startKeyboardDrag, announce_isDesktop, setItem]

theorem endKeyboardDrag_keyboardDragState (s : ManagerState) (i : ℕ)
    (hcur : s.keyboardDragState.currentItem = some i) :
    (endKeyboardDrag s).keyboardDragState = ⟨false, none⟩ := by
  simp [endKeyboardDrag, hcur]

theorem endKeyboardDrag_items (s : ManagerState) (i : ℕ)
    (hcur : s.keyboardDragState.currentItem = some i) :
    (endKeyboardDrag s).items = setItemList s.items i (fun it =>
      { it with hasKeyboardDraggingClass := false, ariaGrabbed := some "false" }) := by
  simp [endKeyboardDrag, hcur, announce_items, setItem]

theorem handleKeyDown_activation_start (s : ManagerState) (i : ℕ)
    (key : String) (sh : Bool) (cr ir : Rect)
    (hd : s.isDesktop = true)
    (hk : s.keyboardDragState.isKeyboardDragging = false)
    (hkey : key = "Enter" ∨ key = " ") :
    handleKeyDown s i key sh cr ir = startKeyboardDrag s i := by
  rcases hkey with rfl | rfl <;> simp [handleKeyDown, hd, hk]

theorem handleKeyDown_activation_end (s : ManagerState) (i : ℕ)
    (key : String) (sh : Bool) (cr ir : Rect)
    (hd : s.isDesktop = true)
    (hk : s.keyboardDragState.isKeyboardDragging = true)
    (hkey : key = "Enter" ∨ key = " ") :
    handleKeyDown s i key sh cr ir = endKeyboardDrag s := by
  rcases hkey with rfl | rfl <;> simp [handleKeyDown, hd, hk]

theorem handleKeyDown_arrows (s : ManagerState) (cr ir : Rect) (i : ℕ)
    (sh : Bool)
    (hd : s.isDesktop = true)
    (hk : s.keyboardDragState.isKeyboardDragging = true)
    (hcur : s.keyboardDragState.currentItem = some i) :
    (handleKeyDown s i "ArrowRight" sh cr ir = moveItemKeyboard s cr ir
      (if sh then s.config.keyboard.fastMoveStep else s.config.keyboard.moveStep) 0) ∧
    (handleKeyDown s i "ArrowLeft" sh cr ir = moveItemKeyboard s cr ir
      (-(if sh then s.config.keyboard.fastMoveStep else s.config.keyboard.moveStep)) 0) ∧
    (handleKeyDown s i "ArrowUp" sh cr ir = moveItemKeyboard s cr ir 0
      (-(if sh then s.config.keyboard.fastMoveStep else s.config.keyboard.moveStep))) ∧
    (handleKeyDown s i "ArrowDown" sh cr ir = moveItemKeyboard s cr ir 0
      (if sh then s.config.keyboard.fastMoveStep else s.config.keyboard.moveStep)) := by
  refine ⟨?_, ?_, ?_, ?_⟩ <;> simp [handleKeyDown, hd, hk, hcur]

/-- `baseState` with an active keyboard-drag session on item 0 only. -/
def kbdOnZeroState : ManagerState :=
  { baseState with keyboardDragState := ⟨true, some 0⟩ }

/-- C4 counterexample: in desktop mode item 1 is not in keyboard-drag mode
(it does not own the session and carries no keyboard-dragging class), yet
an activation key on item 1 does not start a session for it — the handler
ends item 0's session instead, because the toggle tests the global
`isKeyboardDragging` flag, not the target item. -/
theorem activation_toggle_counterexample :
    kbdOnZeroState.isDesktop = true ∧
    kbdOnZeroState.keyboardDragState.currentItem ≠ some 1 ∧
    itemKbdClass kbdOnZeroState 1 = some false ∧
    (handleKeyDown kbdOnZeroState 1 "Enter" false exCR exIR).keyboardDragState
      = ⟨false, none⟩ ∧
    itemKbdClass (handleKeyDown kbdOnZeroState 1 "Enter" false exCR exIR) 1 =
      some false := by
  have hred : handleKeyDown kbdOnZeroState 1 "Enter" false exCR exIR =
      endKeyboardDrag kbdOnZeroState :=
    handleKeyDown_activation_end kbdOnZeroState 1 "Enter" false exCR exIR
      rfl rfl (Or.inl rfl)
  refine ⟨rfl, by decide, rfl, ?_, ?_⟩
  · rw [hred]
    exact endKeyboardDrag_keyboardDragState kbdOnZeroState 0 rfl
  · rw [hred, itemKbdClass, endKeyboardDrag_items kbdOnZeroState 0 rfl,
      setItemList_get?_ne _ _ _ _ (by decide)]
    rfl

/-- C4 (amended): in desktop mode an activation key (Enter or Space) on a
focused item toggles the keyboard-drag session: if no keyboard-drag session
is active, a session is started for that item (keyboard-dragging class
added, `aria-grabbed="true"`), and a second activation on the same item
then returns it to the non-dragging state with `aria-grabbed="false"`; if a
session is already active — even one owned by another item — an activation
key instead ends that session and starts none for the target item. -/
theorem activation_toggles_keyboard_drag (s : ManagerState) (i j : ℕ)
    (key key2 : String) (sh sh2 : Bool) (cr ir cr2 ir2 : Rect)
    (it : ItemState)
    (hd : s.isDesktop = true) (hit : s.items[i]? = some it)
    (hkey : key = "Enter" ∨ key = " ")
    (hkey2 : key2 = "Enter" ∨ key2 = " ") :
    (s.keyboardDragState.isKeyboardDragging = false →
      (handleKeyDown s i key sh cr ir).keyboardDragState = ⟨true, some i⟩ ∧
      itemKbdClass (handleKeyDown s i key sh cr ir) i = some true ∧
      itemAriaGrabbed (handleKeyDown s i key sh cr ir) i = some (some "true") ∧
      (handleKeyDown (handleKeyDown s i key sh cr ir) i key2 sh2 cr2
          ir2).keyboardDragState = ⟨false, none⟩ ∧
      itemKbdClass (handleKeyDown (handleKeyDown s i key sh cr ir) i key2 sh2
          cr2 ir2) i = some false ∧
      itemAriaGrabbed (handleKeyDown (handleKeyDown s i key sh cr ir) i key2
          sh2 cr2 ir2) i = some (some "false")) ∧
    (s.keyboardDragState.isKeyboardDragging = true →
      s.keyboardDragState.currentItem = some j →
      handleKeyDown s i key sh cr ir = endKeyboardDrag s ∧
      (handleKeyDown s i key sh cr ir).keyboardDragState = ⟨false, none⟩) := by
  constructor
  · intro hk
    have h1 : handleKeyDown s i key sh cr ir = startKeyboardDrag s i :=
      handleKeyDown_activation_start s i key sh cr ir hd hk hkey
    have hkbd1 : (startKeyboardDrag s i).keyboardDragState = ⟨true, some i⟩ :=
      startKeyboardDrag_keyboardDragState s i
    have hget1 : (startKeyboardDrag s i).items[i]? = some
        { it with hasKeyboardDraggingClass := true, ariaGrabbed := some "true" } := by
      rw [startKeyboardDrag_items, setItemList_get?, hit]; rfl
    have h2 : handleKeyDown (startKeyboardDrag s i) i key2 sh2 cr2 ir2 =
        endKeyboardDrag (startKeyboardDrag s i) :=
      handleKeyDown_activation_end (startKeyboardDrag s i) i key2 sh2 cr2 ir2
        (by rw [startKeyboardDrag_isDesktop]; exact hd)
        (by rw [hkbd1]) hkey2
    have hcur1 : (startKeyboardDrag s i).keyboardDragState.currentItem = some i := by
      rw [hkbd1]
    have hget2 : (endKeyboardDrag (startKeyboardDrag s i)).items[i]? = some
        { it with hasKeyboardDraggingClass := false, ariaGrabbed := some "false" } := by
      rw [endKeyboardDrag_items _ i hcur1, setItemList_get?, hget1]; rfl
    refine ⟨by rw [h1, hkbd1], ?_, ?_, ?_, ?_, ?_⟩
    · rw [h1, itemKbdClass, hget1]; rfl
    · rw [h1, itemAriaGrabbed, hget1]; rfl
    · rw [h1, h2]; exact endKeyboardDrag_keyboardDragState _ i hcur1
    · rw [h1, h2, itemKbdClass, hget2]; rfl
    · rw [h1, h2, itemAriaGrabbed, hget2]; rfl
  · intro hk hcur
    have h1 : handleKeyDown s i key sh cr ir = endKeyboardDrag s :=
      handleKeyDown_activation_end s i key sh cr ir hd hk hkey
    exact ⟨h1, by rw [h1]; exact endKeyboardDrag_keyboardDragState s j hcur⟩

/-- Witness for the amended C4: two Enter presses on item 0 of `baseState`
grab it and then release it. -/
theorem activation_toggles_keyboard_drag_witness :
    baseState.isDesktop = true ∧
    baseState.keyboardDragState.isKeyboardDragging = false ∧
    ((handleKeyDown baseState 0 "Enter" false exCR exIR).keyboardDragState =
        ⟨true, some 0⟩ ∧
      itemKbdClass (handleKeyDown baseState 0 "Enter" false exCR exIR) 0 =
        some true ∧
      itemAriaGrabbed (handleKeyDown baseState 0 "Enter" false exCR exIR) 0 =
        some (some "true") ∧
      (handleKeyDown (handleKeyDown baseState 0 "Enter" false exCR exIR) 0
          "Enter" false exCR exIR).keyboardDragState = ⟨false, none⟩ ∧
      itemKbdClass (handleKeyDown (handleKeyDown baseState 0 "Enter" false
          exCR exIR) 0 "Enter" false exCR exIR) 0 = some false ∧
      itemAriaGrabbed (handleKeyDown (handleKeyDown baseState 0 "Enter" false
          exCR exIR) 0 "Enter" false exCR exIR) 0 = some (some "false")) :=
  ⟨rfl, rfl,
    (activation_toggles_keyboard_drag baseState 0 0 "Enter" "Enter" false
      false exCR exIR exCR exIR blankItem rfl rfl (Or.inl rfl)
      (Or.inl rfl)).1 rfl⟩

/-- C6: While a keyboard-drag session is active on an item, each Arrow key
press moves that item by `keyboard.moveStep` pixels (default 10) along the
corresponding axis, or by `keyboard.fastMoveStep` pixels (default 50) when
Shift is held; the resulting position is clamped with the same
`max 0 (min · (containerSize - itemSize))` clamp as pointer drag and is
written to both the rendered offset and the persisted data attributes. -/
theorem arrow_key_moves_by_step (s : ManagerState) (cr ir : Rect) (i : ℕ)
    (it : ItemState) (sh : Bool) (step : ℚ)
    (hd : s.isDesktop = true)
    (hk : s.keyboardDragState.isKeyboardDragging = true)
    (hcur : s.keyboardDragState.currentItem = some i)
    (hc : s.hasContainer = true)
    (hit : s.items[i]? = some it)
    (hstep : step = if sh then s.config.keyboard.fastMoveStep
      else s.config.keyboard.moveStep) :
    DRAG_CONTAINER.keyboard.moveStep = 10 ∧
    DRAG_CONTAINER.keyboard.fastMoveStep = 50 ∧
    (renderedOffset (handleKeyDown s i "ArrowRight" sh cr ir) i =
      some (max 0 (min (it.styleLeft.getD 0 + step) (cr.width - ir.width)),
            max 0 (min (it.styleTop.getD 0) (cr.height - ir.height))) ∧
     itemDataX (handleKeyDown s i "ArrowRight" sh cr ir) i =
      some ((round (max 0 (min (it.styleLeft.getD 0 + step)
        (cr.width - ir.width))) : ℤ) : ℚ) ∧
     itemDataY (handleKeyDown s i "ArrowRight" sh cr ir) i =
      some ((round (max 0 (min (it.styleTop.getD 0)
        (cr.height - ir.height))) : ℤ) : ℚ)) ∧
    (renderedOffset (handleKeyDown s i "ArrowLeft" sh cr ir) i =
      some (max 0 (min (it.styleLeft.getD 0 - step) (cr.width - ir.width)),
            max 0 (min (it.styleTop.getD 0) (cr.height - ir.height))) ∧
     itemDataX (handleKeyDown s i "ArrowLeft" sh cr ir) i =
      some ((round (max 0 (min (it.styleLeft.getD 0 - step)
        (cr.width - ir.width))) : ℤ) : ℚ) ∧
     itemDataY (handleKeyDown s i "ArrowLeft" sh cr ir) i =
      some ((round (max 0 (min (it.styleTop.getD 0)
        (cr.height - ir.height))) : ℤ) : ℚ)) ∧
    (renderedOffset (handleKeyDown s i "ArrowUp" sh cr ir) i =
      some (max 0 (min (it.styleLeft.getD 0) (cr.width - ir.width)),
            max 0 (min (it.styleTop.getD 0 - step) (cr.height - ir.height))) ∧
     itemDataX (handleKeyDown s i "ArrowUp" sh cr ir) i =
      some ((round (max 0 (min (it.styleLeft.getD 0)
        (cr.width - ir.width))) : ℤ) : ℚ) ∧
     itemDataY (handleKeyDown s i "ArrowUp" sh cr ir) i =
      some ((round (max 0 (min (it.styleTop.getD 0 - step)
        (cr.height - ir.height))) : ℤ) : ℚ)) ∧
    (renderedOffset (handleKeyDown s i "ArrowDown" sh cr ir) i =
      some (max 0 (min (it.styleLeft.getD 0) (cr.width - ir.width)),
            max 0 (min (it.styleTop.getD 0 + step) (cr.height - ir.height))) ∧
     itemDataX (handleKeyDown s i "ArrowDown" sh cr ir) i =
      some ((round (max 0 (min (it.styleLeft.getD 0)
        (cr.width - ir.width))) : ℤ) : ℚ) ∧
     itemDataY (handleKeyDown s i "ArrowDown" sh cr ir) i =
      some ((round (max 0 (min (it.styleTop.getD 0 + step)
        (cr.height - ir.height))) : ℤ) : ℚ)) := by
  obtain ⟨hr, hl, hu, hdn⟩ := handleKeyDown_arrows s cr ir i sh hd hk hcur
  rw [← hstep] at hr hl hu hdn
  refine ⟨rfl, rfl, ?_, ?_, ?_, ?_⟩
  · rw [hr]
    simpa [add_zero] using moveItemKeyboard_result s cr ir step 0 i it hcur hc hit
  · rw [hl]
    simpa [add_zero, sub_eq_add_neg] using
      moveItemKeyboard_result s cr ir (-step) 0 i it hcur hc hit
  · rw [hu]
    simpa [add_zero, sub_eq_add_neg] using
      moveItemKeyboard_result s cr ir 0 (-step) i it hcur hc hit
  · rw [hdn]
    simpa [add_zero] using moveItemKeyboard_result s cr ir 0 step i it hcur hc hit

/-- Witness for C6: an ArrowRight press without Shift on item 0 of a state
whose session is on item 0; the step is the default 10. -/
theorem arrow_key_moves_by_step_witness :
    kbdOnZeroState.isDesktop = true ∧
    kbdOnZeroState.keyboardDragState.currentItem = some 0 ∧
    (renderedOffset (handleKeyDown kbdOnZeroState 0 "ArrowRight" false exCR
        exIR) 0 =
      some (max 0 (min (blankItem.styleLeft.getD 0 + 10)
              (exCR.width - exIR.width)),
            max 0 (min (blankItem.styleTop.getD 0)
              (exCR.height - exIR.height))) ∧
     itemDataX (handleKeyDown kbdOnZeroState 0 "ArrowRight" false exCR exIR)
        0 =
      some ((round (max 0 (min (blankItem.styleLeft.getD 0 + 10)
        (exCR.width - exIR.width))) : ℤ) : ℚ) ∧
     itemDataY (handleKeyDown kbdOnZeroState 0 "ArrowRight" false exCR exIR)
        0 =
      some ((round (max 0 (min (blankItem.styleTop.getD 0)
        (exCR.height - exIR.height))) : ℤ) : ℚ)) :=
  ⟨rfl, rfl,
    (arrow_key_moves_by_step kbdOnZeroState exCR exIR 0 blankItem false 10
      rfl rfl rfl rfl rfl rfl).2.2.1⟩

/-- C10: Implicit. Keyboard-moving an item whose inline `left`/`top` style
is missing or unparseable treats its current position as (0, 0): the first
arrow-key delta (dx, dy) positions the item at the clamped delta from the
container origin, and a keyboard drop on such an item announces coordinates
computed from 0 ("dropped at position 0, 0"). -/
theorem missing_style_treated_as_origin (s : ManagerState) (cr ir : Rect)
    (dx dy : ℚ) (i : ℕ) (it : ItemState)
    (hcur : s.keyboardDragState.currentItem = some i)
    (hc : s.hasContainer = true)
    (hit : s.items[i]? = some it)
    (hl : it.styleLeft = none) (ht : it.styleTop = none)
    (ha : s.announcerPresent = true) :
    renderedOffset (moveItemKeyboard s cr ir dx dy) i =
      some (max 0 (min dx (cr.width - ir.width)),
            max 0 (min dy (cr.height - ir.height))) ∧
    (endKeyboardDrag s).announcements =
      s.announcements ++ [s!"Item {i + 1} dropped at position 0, 0."] := by
  constructor
  · obtain ⟨h1, -, -⟩ := moveItemKeyboard_result s cr ir dx dy i it hcur hc hit
    rw [h1, hl, ht]
    simp
  · simp only [endKeyboardDrag, hcur, setItem, announce, ha]
    simp [setItemList_get?, hit, hl, ht, round_zero, String.append_assoc]
    congr 1

/-- Witness for C10: item 0 of `kbdOnZeroState` has no inline styles; a
keyboard delta of (10, 10) lands at the clamped (10, 10), and a drop
announces position 0, 0. -/
theorem missing_style_treated_as_origin_witness :
    kbdOnZeroState.keyboardDragState.currentItem = some 0 ∧
    blankItem.styleLeft = none ∧
    renderedOffset (moveItemKeyboard kbdOnZeroState exCR exIR 10 10) 0 =
      some (max 0 (min 10 (exCR.width - exIR.width)),
            max 0 (min 10 (exCR.height - exIR.height))) ∧
    (endKeyboardDrag kbdOnZeroState).announcements =
      kbdOnZeroState.announcements ++ [s!"Item {0 + 1} dropped at position 0, 0."] :=
  ⟨rfl, rfl,
    (missing_style_treated_as_origin kbdOnZeroState exCR exIR 10 10 0
      blankItem rfl rfl rfl rfl rfl rfl).1,
    (missing_style_treated_as_origin kbdOnZeroState exCR exIR 10 10 0
      blankItem rfl rfl rfl rfl rfl rfl).2⟩

theorem positionItems_wrapper (s : ManagerState) :
    (positionItems s).wrapper = s.wrapper := by
  unfold positionItems; split <;> rfl

theorem positionItems_isDesktop (s : ManagerState) :
    (positionItems s).isDesktop = s.isDesktop := by
  unfold positionItems; split <;> rfl

theorem positionItems_config (s : ManagerState) :
    (positionItems s).config = s.config := by
  unfold positionItems; split <;> rfl

theorem applyLayout_isDesktop (s : ManagerState) :
    (applyLayout s).isDesktop = s.isDesktop := by
  unfold applyLayout; split <;> rfl

theorem handleResize_isDesktop (s : ManagerState) (w : ℚ) :
    (handleResize s w).isDesktop =
      decide (w > s.config.layout.desktopBreakpoint) := by
  simp only [handleResize, updateViewportMode, applyLayout, positionItems,
    bindDragEvents, makeItemsAccessible]
  repeat' split
  all_goals rfl

theorem handleResize_config (s : ManagerState) (w : ℚ) :
    (handleResize s w).config = s.config := by
  simp only [handleResize, updateViewportMode, applyLayout, positionItems,
    bindDragEvents, makeItemsAccessible]
  repeat' split
  all_goals rfl

theorem handleResize_no_change (s : ManagerState) (w : ℚ)
    (h : decide (w > s.config.layout.desktopBreakpoint) = s.isDesktop) :
    handleResize s w = s := by
  simp only [handleResize, updateViewportMode, h]
  simp

/-- C7: Resize handling. A single resize event whose new viewport width
crosses the configured breakpoint flips the wrapper's layout class to the
new mode, the desktop and mobile classes being mutually exclusive; and any
further resize event that does not change the viewport mode leaves the
whole state unchanged — no rebinding, no item attribute or style changes
(idempotence). -/
theorem resize_flip_and_idempotence (s : ManagerState) (w1 w2 : ℚ)
    (hw : s.hasWrapper = true)
    (hcross : decide (w1 > s.config.layout.desktopBreakpoint) ≠ s.isDesktop)
    (hsame : decide (w2 > s.config.layout.desktopBreakpoint) =
      decide (w1 > s.config.layout.desktopBreakpoint)) :
    (handleResize s w1).wrapper.hasDesktopClass =
      decide (w1 > s.config.layout.desktopBreakpoint) ∧
    (handleResize s w1).wrapper.hasMobileClass =
      !decide (w1 > s.config.layout.desktopBreakpoint) ∧
    handleResize (handleResize s w1) w2 = handleResize s w1 := by
  have hwr : (handleResize s w1).wrapper =
      ⟨decide (w1 > s.config.layout.desktopBreakpoint),
       !decide (w1 > s.config.layout.desktopBreakpoint)⟩ := by
    simp only [handleResize, updateViewportMode]
    rw [if_pos (by simpa using fun h => hcross h.symm)]
    cases hb : decide (w1 > s.config.layout.desktopBreakpoint) <;>
      simp [applyLayout, hw, hb, positionItems_wrapper, positionItems_isDesktop,
        bindDragEvents, makeItemsAccessible]
  refine ⟨by rw [hwr], by rw [hwr], ?_⟩
  refine handleResize_no_change (handleResize s w1) w2 ?_
  rw [handleResize_config, handleResize_isDesktop, hsame]

/-- Witness for C7: `baseState` is in desktop mode with breakpoint 768;
a resize to width 500 crosses into mobile, and a further resize to width
600 is a no-op. -/
theorem resize_flip_and_idempotence_witness :
    baseState.hasWrapper = true ∧
    decide ((500 : ℚ) > baseState.config.layout.desktopBreakpoint) ≠
      baseState.isDesktop ∧
    (handleResize baseState 500).wrapper.hasDesktopClass =
      decide ((500 : ℚ) > baseState.config.layout.desktopBreakpoint) ∧
    (handleResize baseState 500).wrapper.hasMobileClass =
      !decide ((500 : ℚ) > baseState.config.layout.desktopBreakpoint) ∧
    handleResize (handleResize baseState 500) 600 = handleResize baseState 500 :=
  ⟨rfl, by decide,
    (resize_flip_and_idempotence baseState 500 600 rfl (by decide)
      (by decide)).1,
    (resize_flip_and_idempotence baseState 500 600 rfl (by decide)
      (by decide)).2.1,
    (resize_flip_and_idempotence baseState 500 600 rfl (by decide)
      (by decide)).2.2⟩

end DragDrop
